import Mathlib

/-!
Verification of the document indexing and retrieval subsystem of the
Dashboard records-management application.

The Python source is shallowly embedded: external effects (the pdfminer
extractor, the PyMuPDF/tesseract rasterize-and-OCR stack, the `ocrmypdf`
subprocess, the filesystem) are oracles packaged in environment structures,
with `Except Unit` results standing for Python exceptions; database tables
(`doc_fts`, `project_documents`, `foia_attachments`, `entities`,
`entity_mentions`) are lists of row structures, and each SQL statement of the
source is translated into the corresponding list operation.
-/

/-! ## String primitives

Python string operations and SQL functions (`lower`, `LIKE` anchors,
`str.strip`, `str.split`, `"\\n".join`) are embedded as structural functions
over the character list of a `String`, so that every definition evaluates by
kernel reduction on concrete inputs. -/

/-- ASCII lowercasing of one character (SQL `lower`, Python `str.lower` on
the ASCII data this system handles). -/
def lowerChar (c : Char) : Char :=
  if ('A' ≤ c && c ≤ 'Z') then Char.ofNat (c.toNat + 32) else c

/-- ASCII lowercasing of a string. -/
def pyLower (s : String) : String := String.mk (s.data.map lowerChar)

/-- Python `str.strip()`: drop whitespace from both ends. -/
def pyStrip (s : String) : String :=
  String.mk
    (((s.data.dropWhile Char.isWhitespace).reverse.dropWhile
        Char.isWhitespace).reverse)

/-- Whether `p` is a prefix of `s`. -/
def strIsPrefixOf (p s : String) : Bool := p.data.isPrefixOf s.data

/-- Whether `s` ends with `suf` (SQL `LIKE '%.pdf'` after lowercasing). -/
def strEndsWith (s suf : String) : Bool := suf.data.isSuffixOf s.data

/-- Split a character list at every separator character, keeping empty
pieces (the semantics of splitting on single characters). -/
def splitOnPred (p : Char → Bool) : List Char → List (List Char)
  | [] => [[]]
  | c :: cs =>
      match splitOnPred p cs with
      | [] => [[c]]
      | g :: gs => if p c then [] :: g :: gs else (c :: g) :: gs

/-- Python `sep.join(parts)`. -/
def joinWith (sep : String) : List String → String
  | [] => ""
  | x :: xs => xs.foldl (fun acc y => acc ++ sep ++ y) x

/-! ## search_text.py -/

/-- Oracle for the external libraries used by `search_text.py`.
`pdfminer path` models `pdfminer.high_level.extract_text(path)`: it may raise
(`Except.error`) or return `None` (`Option.none`).  `depsOk` models the
availability of `fitz`, `PIL.Image` and `pytesseract` (the module-level
try/except around their imports sets all three to `None` together).
`fitzOpen` models
`fitz.open(path)` returning the list of page handles, and `pageOcr p lang dpi`
models the per-page body of the loop in `_ocr_pdf_text` (pixmap rendering,
`Image.frombytes`, `pytesseract.image_to_string`), which may raise. -/
structure TextEnv where
  pdfminer : String → Except Unit (Option String)
  depsOk : Bool
  fitzOpen : String → Except Unit (List Nat)
  pageOcr : Nat → String → Nat → Except Unit String

/-- Python `s or ""` on a string `s`: the identity, written as the source has it. -/
def pyOr (s : String) : String := if s = "" then "" else s

/-- Embedding of `search_text._pdfminer_text`: pdfminer extraction with the
catch-all `except` returning `""`, and `or ""` applied to a `None` result. -/
def pdfminer_text (env : TextEnv) (path : String) : String :=
  match env.pdfminer path with
  | Except.ok t => t.getD ""
  | Except.error _ => ""

/-- Embedding of `search_text._ocr_pdf_text`: render each page and OCR it,
skipping pages whose processing raises (`except: continue`) and pages whose
recognized text is empty (`if txt:`), then join the parts with newlines and
strip.  `maxPages = none` models `max_pages=None` (all pages);
`some m` models `range(min(max_pages, n))`, i.e. `take m`. -/
def ocr_pdf_text (env : TextEnv) (path lang : String) (dpi : Nat)
    (maxPages : Option Nat) : String :=
  if !env.depsOk then ""
  else
    match env.fitzOpen path with
    | Except.error _ => ""
    | Except.ok pages =>
        let pages := match maxPages with
          | none => pages
          | some m => pages.take m
        let parts := pages.filterMap (fun p =>
          match env.pageOcr p lang dpi with
          | Except.error _ => none
          | Except.ok txt => if txt = "" then none else some txt)
        pyStrip (joinWith "\n" parts)

/-- Embedding of `search_text.extract_pdf_text`, instrumented: the second
component records whether the OCR fallback branch was entered.  The source:
try pdfminer; if `ocr_fallback` and the stripped text has fewer than 20
characters, OCR; return the OCR text when its stripped length is strictly
greater, else the direct-extraction text. -/
def extract_pdf_textRun (env : TextEnv) (path : String) (ocr_fallback : Bool)
    (ocr_lang : String) : String × Bool :=
  let txt := pdfminer_text env path
  if ocr_fallback && decide ((pyStrip txt).length < 20) then
    let ocr_txt := ocr_pdf_text env path ocr_lang 300 none
    if (pyStrip ocr_txt).length > (pyStrip txt).length then (ocr_txt, true)
    else (pyOr txt, true)
  else (pyOr txt, false)

/-- The text-extraction entry point `search_text.extract_pdf_text`. -/
def extract_pdf_text (env : TextEnv) (path : String) (ocr_fallback : Bool)
    (ocr_lang : String) : String :=
  (extract_pdf_textRun env path ocr_fallback ocr_lang).1

/-- Exception-level translation of `_pdfminer_text`: the function body runs in
the exception monad and its `try/except Exception: return ""` is the handler
that maps every error to a normal `""` return. -/
def pdfminer_textE (env : TextEnv) (path : String) : Except Unit String :=
  match env.pdfminer path with
  | Except.ok t => Except.ok (t.getD "")
  | Except.error _ => Except.ok ""

/-- Exception-level translation of `_ocr_pdf_text`: the `fitz.open` try/except
returns `""`, and each page of the loop has its own `except: continue`. -/
def ocr_pdf_textE (env : TextEnv) (path lang : String) (dpi : Nat)
    (maxPages : Option Nat) : Except Unit String :=
  if !env.depsOk then Except.ok ""
  else
    match env.fitzOpen path with
    | Except.error _ => Except.ok ""
    | Except.ok pages =>
        let pages := match maxPages with
          | none => pages
          | some m => pages.take m
        let parts := pages.filterMap (fun p =>
          match env.pageOcr p lang dpi with
          | Except.error _ => none
          | Except.ok txt => if txt = "" then none else some txt)
        Except.ok (pyStrip (joinWith "\n" parts))

/-- Exception-level translation of `extract_pdf_text` itself: it composes the
two helpers monadically and adds no handler of its own. -/
def extract_pdf_textE (env : TextEnv) (path : String) (ocr_fallback : Bool)
    (ocr_lang : String) : Except Unit String := do
  let txt ← pdfminer_textE env path
  if ocr_fallback && decide ((pyStrip txt).length < 20) then
    let ocr_txt ← ocr_pdf_textE env path ocr_lang 300 none
    if (pyStrip ocr_txt).length > (pyStrip txt).length then pure ocr_txt
    else pure (pyOr txt)
  else pure (pyOr txt)

/-! ## ocr_utils.py -/

/-- A completed `subprocess.run` of ocrmypdf (only the return code is
inspected by the source). -/
structure Subproc where
  returncode : Int
deriving Repr, DecidableEq

/-- Oracle for the external effects of `ocr_utils.py`.
`runOcrmypdf lang inPath outPath` models `subprocess.run(["ocrmypdf", ...])`,
with `Except.error` standing for `FileNotFoundError` (tool not installed);
`pathOk` models `os.path.exists`; `extractText` models pdfminer
`extract_text` (used by `pdf_has_text`); `fitzOpen`, `pixmap300`, `tessPdf`
and `savePdf` model the PyMuPDF/pytesseract steps of
`ocr_with_pymupdf_tesseract` (page handles, `get_pixmap(dpi=300)` plus PNG
encoding, `image_to_pdf_or_hocr`, and assembling/saving the output PDF). -/
structure OcrEnv where
  runOcrmypdf : String → String → String → Except Unit Subproc
  pathOk : String → Bool
  extractText : String → Except Unit (Option String)
  fitzOpen : String → Except Unit (List Nat)
  pixmap300 : Nat → Except Unit Nat
  tessPdf : Nat → Except Unit Nat
  savePdf : String → List Nat → Except Unit Unit

/-- Embedding of `ocr_utils.pdf_has_text`: `bool(text and text.strip())`,
with any exception giving `False`. -/
def pdf_has_text (env : OcrEnv) (path : String) : Bool :=
  match env.extractText path with
  | Except.error _ => false
  | Except.ok none => false
  | Except.ok (some t) => (t != "") && (pyStrip t != "")

/-- Embedding of `ocr_utils.ocr_with_pymupdf_tesseract`: open the input,
rasterize each page at 300 DPI, OCR each page image to a one-page PDF,
assemble and save; any exception anywhere yields `False`. -/
def ocr_with_pymupdf_tesseract (env : OcrEnv) (in_pdf out_pdf : String) : Bool :=
  match env.fitzOpen in_pdf with
  | Except.error _ => false
  | Except.ok pages =>
      let assembled := pages.foldl
        (fun acc p => acc.bind (fun parts =>
          (env.pixmap300 p).bind (fun img =>
            (env.tessPdf img).map (fun part => parts ++ [part]))))
        (Except.ok [])
      match assembled with
      | Except.error _ => false
      | Except.ok parts =>
          match env.savePdf out_pdf parts with
          | Except.error _ => false
          | Except.ok _ => true

/-- Embedding of `ocr_utils.make_searchable`, instrumented: the second
component counts ocrmypdf subprocess invocations and the third collects the
printed diagnostics.  The source runs
`subprocess.run(["ocrmypdf", "-l", lang, "--skip-text", in_path, out_path])`,
prints and returns `False` on a non-zero return code or a
`FileNotFoundError`, and otherwise returns `os.path.exists(out_path)`. -/
def make_searchableRun (env : OcrEnv) (in_path out_path lang : String) :
    Bool × Nat × List String :=
  match env.runOcrmypdf lang in_path out_path with
  | Except.error _ =>
      (false, 1,
        ["[ocr] ocrmypdf not found on PATH. Install it (brew install ocrmypdf tesseract)."])
  | Except.ok cp =>
      if cp.returncode != 0 then
        (false, 1, ["[ocr] ocrmypdf failed (" ++ toString cp.returncode ++ ")"])
      else (env.pathOk out_path, 1, [])

/-- The boolean result of `ocr_utils.make_searchable`. -/
def make_searchable (env : OcrEnv) (in_path out_path lang : String) : Bool :=
  (make_searchableRun env in_path out_path lang).1

/-- Exception-level translation of `make_searchable`: the only handler in the
source is `except FileNotFoundError`, modelled by catching the error of
`runOcrmypdf`. -/
def make_searchableE (env : OcrEnv) (in_path out_path lang : String) :
    Except Unit Bool :=
  match env.runOcrmypdf lang in_path out_path with
  | Except.error _ => Except.ok false
  | Except.ok cp =>
      if cp.returncode != 0 then Except.ok false
      else Except.ok (env.pathOk out_path)

/-! ## The doc_fts table and its writers (app.py, scripts/ocr_backfill.py) -/

/-- A row of the `doc_fts` full-text table: `(doc_id, title, body)`.
The table has no source-kind column; `doc_id` is the only key used by the
delete-then-insert writers. -/
structure FtsRow where
  docId : Nat
  title : String
  body : String
deriving Repr, DecidableEq

/-- The delete-then-insert upsert used by `project_mcpo_upload` and by the
`fts_reindex` command in app.py:
`DELETE FROM doc_fts WHERE doc_id = :id` followed by
`INSERT INTO doc_fts (doc_id, title, body) VALUES (:id, :title, :body)`. -/
def ftsUpsert (fts : List FtsRow) (id : Nat) (title body : String) :
    List FtsRow :=
  (fts.filter (fun r => r.docId != id)) ++ [⟨id, title, body⟩]

/-- A row of `project_documents` as read by the indexing code in app.py. -/
structure ProjectDoc where
  id : Nat
  title : String
  filename : String
  mimeType : Option String
  storedPath : String
deriving Repr, DecidableEq

/-- The SQL eligibility filter of `backfill_fts` and `fts_reindex`:
`(mime_type IS NOT NULL AND lower(mime_type) LIKE 'application/pdf%') OR
lower(filename) LIKE '%.pdf'`. -/
def isPdfDoc (d : ProjectDoc) : Bool :=
  (match d.mimeType with
   | some m => strIsPrefixOf "application/pdf" (pyLower m)
   | none => false)
  || strEndsWith (pyLower d.filename) ".pdf"

/-- SQL `COALESCE(NULLIF(d.title,''), d.filename)`. -/
def coalesceTitle (title filename : String) : String :=
  if title = "" then filename else title

/-- Python `row["title"] or "Untitled"`. -/
def orUntitled (s : String) : String := if s = "" then "Untitled" else s

/-- Embedding of `backfill_fts` (app.py): select the PDF-eligible project
documents with no `doc_fts` row (`NOT EXISTS` anti-join), extract each one
(the per-row `try/except` keeps an empty body on failure, and
`extract_pdf_text` is total, so extraction is an oracle `String → String`)
and insert a row for each.  Returns the new table and the number of
documents indexed by this run. -/
def backfill_fts (extract : String → String) (docs : List ProjectDoc)
    (fts : List FtsRow) : List FtsRow × Nat :=
  let missing := docs.filter
    (fun d => isPdfDoc d && !(fts.any (fun r => r.docId == d.id)))
  (fts ++ missing.map
      (fun d => ⟨d.id, orUntitled (coalesceTitle d.title d.filename),
                 extract d.storedPath⟩),
   missing.length)

/-- A `project_documents` row as used by `scripts/ocr_backfill.py`.
`storedPath = some p` means `d.stored_path` is set and `os.path.exists` holds
(the script only OCRs and reindexes such documents); `none` means the path is
missing or does not exist. -/
structure BfProjectDoc where
  id : Nat
  title : String
  filename : String
  mimeType : Option String
  storedPath : Option String
deriving Repr, DecidableEq

/-- A `foia_attachments` row as used by `scripts/ocr_backfill.py`.
`srcPath` is the readable source the script resolves for indexing (the OCR
cache copy if it exists, else a temporary decryption of the stored blob);
`none` means neither exists, in which case the script `continue`s without
touching `doc_fts` for that id. -/
structure BfAttachment where
  id : Nat
  filename : String
  mimeType : Option String
  srcPath : Option String
deriving Repr, DecidableEq

/-- The SQLAlchemy filter of the project-document pass:
`filename.ilike('%.pdf') | mime_type.ilike('application/pdf%')`. -/
def bfEligPd (d : BfProjectDoc) : Bool :=
  strEndsWith (pyLower d.filename) ".pdf"
  || (match d.mimeType with
      | some m => strIsPrefixOf "application/pdf" (pyLower m)
      | none => false)

/-- The SQLAlchemy filter of the attachment pass (same shape). -/
def bfEligAtt (a : BfAttachment) : Bool :=
  strEndsWith (pyLower a.filename) ".pdf"
  || (match a.mimeType with
      | some m => strIsPrefixOf "application/pdf" (pyLower m)
      | none => false)

/-- Python `(d.title or d.filename or "Untitled")`. -/
def orChain (a b c : String) : String :=
  if a = "" then (if b = "" then c else b) else a

/-- Embedding of the `doc_fts` writes performed by `main()` in
`scripts/ocr_backfill.py`: first the cleanup
`DELETE FROM doc_fts WHERE doc_id NOT IN (SELECT id FROM project_documents
UNION SELECT id FROM foia_attachments)`, then one delete-then-insert per
eligible project document (keyed by `doc_id` only), then one
delete-then-insert per eligible attachment (also keyed by `doc_id` only).
`extract` is the extraction oracle applied to the resolved source path. -/
def ocrBackfillMain (extract : String → String) (pds : List BfProjectDoc)
    (atts : List BfAttachment) (fts : List FtsRow) : List FtsRow :=
  let fts1 := fts.filter (fun r =>
    pds.any (fun d => d.id == r.docId) || atts.any (fun a => a.id == r.docId))
  let fts2 := (pds.filter bfEligPd).foldl (fun acc d =>
    match d.storedPath with
    | none => acc
    | some p =>
        (acc.filter (fun r => r.docId != d.id))
          ++ [⟨d.id, orChain d.title d.filename "Untitled", extract p⟩]) fts1
  (atts.filter bfEligAtt).foldl (fun acc a =>
    match a.srcPath with
    | none => acc
    | some p =>
        (acc.filter (fun r => r.docId != a.id))
          ++ [⟨a.id,
               (if a.filename = "" then "Attachment " ++ toString a.id
                else a.filename),
               extract p⟩]) fts2

/-! ## routes_search.py -/

/-- A `project_documents` row as joined by the `/search` SQL. -/
structure SearchProjectDoc where
  id : Nat
  title : String
  filename : String
  projectSlug : String
deriving Repr, DecidableEq

/-- A `foia_attachments` row as joined by the `/search` SQL. -/
structure SearchAttachment where
  id : Nat
  filename : String
  foiaRequestId : Option Nat
deriving Repr, DecidableEq

/-- A `foia_requests` row (only the columns the `/search` joins read). -/
structure FoiaRequestRow where
  id : Nat
  projectId : Option Nat
deriving Repr, DecidableEq

/-- A `projects` row (only the columns the `/search` joins read). -/
structure ProjectRow where
  id : Nat
  slug : String
deriving Repr, DecidableEq

/-- One row of the `/search` result set.  The `snippet()` excerpt and the
`bm25()` score are not modelled: the claims settled here are independent of
the excerpt text and of result order. -/
structure SearchResult where
  id : Nat
  title : String
  projectSlug : Option String
  src : String
deriving Repr, DecidableEq

/-- Model of the fts5 tokenizer applied to the indexed columns of a `doc_fts`
row (`title` and `body`; `doc_id` is UNINDEXED): lowercase, split at
non-alphanumeric characters, drop empty pieces.  The porter stemmer is not
modelled; the claims settled here do not depend on stemming. -/
def ftsTokens (r : FtsRow) : List String :=
  ((splitOnPred (fun c => !c.isAlphanum)
      (pyLower (r.title ++ " " ++ r.body)).data).map String.mk).filter
    (fun t => t != "")

/-- `doc_fts MATCH m_exact` where `m_exact` AND-combines every whitespace term
of the query in double quotes: every term must occur as an indexed token. -/
def matchExact (terms : List String) (r : FtsRow) : Bool :=
  terms.all (fun t => (ftsTokens r).contains (pyLower t))

/-- `doc_fts MATCH m_prefix` where `m_prefix` AND-combines every term with a
`*` suffix: every term must be a prefix of some indexed token. -/
def matchPref (terms : List String) (r : FtsRow) : Bool :=
  terms.all (fun t => (ftsTokens r).any (fun tok => strIsPrefixOf (pyLower t) tok))

/-- The `LEFT JOIN foia_requests / LEFT JOIN projects` slug resolution of the
attachment branch of the `/search` SQL. -/
def attachmentSlug (reqs : List FoiaRequestRow) (projs : List ProjectRow)
    (a : SearchAttachment) : Option String :=
  match a.foiaRequestId.bind
      (fun rid => (reqs.filter (fun r => r.id == rid)).head?) with
  | none => none
  | some req =>
      req.projectId.bind (fun pid =>
        ((projs.filter (fun p => p.id == pid)).head?).map (fun p => p.slug))

/-- `COALESCE(NULLIF(a.filename,''), 'Attachment ' || a.id)`. -/
def attachmentTitle (a : SearchAttachment) : String :=
  if a.filename = "" then "Attachment " ++ toString a.id else a.filename

/-- One execution of the `/search` SQL for a given MATCH predicate: the
UNION ALL of project-document rows and attachment rows joined against
`doc_fts` through `doc_id`, capped at `LIMIT 50`.  The `ORDER BY bm25` sort
key is not modelled (the claims settled here are independent of order). -/
def searchQuery (idx : List FtsRow) (pds : List SearchProjectDoc)
    (atts : List SearchAttachment) (reqs : List FoiaRequestRow)
    (projs : List ProjectRow) (pred : FtsRow → Bool) : List SearchResult :=
  let projectPart : List SearchResult := (idx.filter pred).flatMap (fun r =>
    (pds.filter (fun d => d.id == r.docId)).map (fun d =>
      ⟨d.id, coalesceTitle d.title d.filename, some d.projectSlug,
       "project"⟩))
  let attachmentPart : List SearchResult := (idx.filter pred).flatMap (fun r =>
    (atts.filter (fun a => a.id == r.docId)).map (fun a =>
      ⟨a.id, attachmentTitle a, attachmentSlug reqs projs a,
       "attachment"⟩))
  (projectPart ++ attachmentPart).take 50

/-- Python `str.split()` with no argument: split on whitespace runs, dropping
empty pieces. -/
def pySplit (s : String) : List String :=
  ((splitOnPred (fun c => c.isWhitespace) s.data).map String.mk).filter
    (fun t => t != "")

/-- Embedding of the `/search` handler in `routes_search.py`:
`q = (request.args.get("q") or "").strip()`; if `q` is empty, no SQL at all
is executed and the empty row list is rendered; otherwise run the exact-term
query and, only when it yields no rows, the prefix query.  The second
component counts how many MATCH queries were executed. -/
def searchHandler (idx : List FtsRow) (pds : List SearchProjectDoc)
    (atts : List SearchAttachment) (reqs : List FoiaRequestRow)
    (projs : List ProjectRow) (qArg : Option String) :
    List SearchResult × Nat :=
  let q := pyStrip (qArg.getD "")
  if q = "" then ([], 0)
  else
    let terms := pySplit q
    let exactRows := searchQuery idx pds atts reqs projs (matchExact terms)
    if exactRows != [] then (exactRows, 1)
    else (searchQuery idx pds atts reqs projs (matchPref terms), 2)

/-! ## Entity extraction (app.py entities_rebuild, scripts/entities_rebuild.py)

The two person/org regexes are embedded as executable scanners.
`NAME_RX = \b([A-Z][a-z]+(?:\s+[A-Z][a-z]+){1,3})\b` and the org pattern
`[A-Za-z][A-Za-z&.\-]+(?:\s+[A-Za-z&.\-]+){1,4}`.  Character classes are the
ASCII ones the patterns spell out.  The scanners mirror the regex engine:
leftmost match, greedy repetition counts with backtracking over the counter
(backtracking inside `[a-z]+` or `\s+` can never repair a failed trailing
`\b`, because every shorter cut leaves a word character adjacent, so only the
repetition counter matters), and `finditer`/`findall` continue scanning at
the end of each match. -/

/-- ASCII `[A-Z]`. -/
def isUpperAZ (c : Char) : Bool := 'A' ≤ c && c ≤ 'Z'

/-- ASCII `[a-z]`. -/
def isLowerAZ (c : Char) : Bool := 'a' ≤ c && c ≤ 'z'

/-- Regex `\w` (ASCII): letters, digits, underscore. -/
def isWordChar (c : Char) : Bool := c.isAlphanum || c == '_'

/-- Greedy `[a-z]+`-style run: the longest prefix satisfying `p`, and the rest. -/
def takeRun (p : Char → Bool) : List Char → List Char × List Char
  | [] => ([], [])
  | c :: cs =>
      if p c then
        let (w, r) := takeRun p cs
        (c :: w, r)
      else ([], c :: cs)

/-- Match `[A-Z][a-z]+` at the head: the matched word and the rest. -/
def matchCapWord (cs : List Char) : Option (List Char × List Char) :=
  match cs with
  | [] => none
  | c :: rest =>
      if isUpperAZ c then
        match takeRun isLowerAZ rest with
        | ([], _) => none
        | (w, r) => some (c :: w, r)
      else none

/-- The trailing `\b` of `NAME_RX`: holds at the end of input or before a
non-word character.  (The character before is always `[a-z]`, a word
character, so the boundary is exactly this test.) -/
def atWordBoundary (cs : List Char) : Bool :=
  match cs with
  | [] => true
  | c :: _ => !isWordChar c

/-- Greedy `(?:\s+[A-Z][a-z]+){0,k}` followed by `\b`: returns the matched
extension characters and the rest, preferring more repetitions and falling
back to fewer when the boundary fails deeper in. -/
def nameExt : List Char → Nat → Option (List Char × List Char)
  | cs, 0 => if atWordBoundary cs then some ([], cs) else none
  | cs, k + 1 =>
      let deeper :=
        match takeRun (fun c => c.isWhitespace) cs with
        | ([], _) => none
        | (sp, r1) =>
            match matchCapWord r1 with
            | none => none
            | some (w, r2) =>
                match nameExt r2 k with
                | none => none
                | some (ext, rest) => some (sp ++ w ++ ext, rest)
      match deeper with
      | some res => some res
      | none => if atWordBoundary cs then some ([], cs) else none

/-- Match the whole of `NAME_RX` at the head of `cs` (the leading `\b` is the
scanner caller's job): `[A-Z][a-z]+` then one mandatory `\s+[A-Z][a-z]+` then
up to two more, greedy, then `\b`. -/
def matchPersonAt (cs : List Char) : Option (List Char × List Char) :=
  match matchCapWord cs with
  | none => none
  | some (w1, r1) =>
      match takeRun (fun c => c.isWhitespace) r1 with
      | ([], _) => none
      | (sp, r2) =>
          match matchCapWord r2 with
          | none => none
          | some (w2, r3) =>
              match nameExt r3 2 with
              | none => none
              | some (ext, rest) => some (w1 ++ sp ++ w2 ++ ext, rest)

/-- `NAME_RX.finditer`: scan left to right; a match may start only at a `\b`
(tracked by whether the previous character is a word character) and scanning
resumes at the end of each match.  `fuel` bounds the recursion; it only needs
to exceed the input length, since every step consumes at least one
character. -/
def scanPersonsF : Nat → List Char → Bool → List String
  | 0, _, _ => []
  | _ + 1, [], _ => []
  | fuel + 1, c :: cs, prevWord =>
      if !prevWord then
        match matchPersonAt (c :: cs) with
        | some (m, rest) => String.mk m :: scanPersonsF fuel rest true
        | none => scanPersonsF fuel cs (isWordChar c)
      else scanPersonsF fuel cs (isWordChar c)

/-- All `NAME_RX` matches of a string, in order. -/
def personMatches (s : String) : List String :=
  scanPersonsF (s.data.length + 1) s.data false

/-- The org-pattern word class `[A-Za-z&.\-]`. -/
def isOrgChar (c : Char) : Bool :=
  c.isAlpha || c == '&' || c == '.' || c == '-'

/-- Greedy `(?:\s+[A-Za-z&.\-]+){0,k}`: no boundary assertion, so greedy
repetition never backtracks. -/
def orgExt : List Char → Nat → List Char × List Char
  | cs, 0 => ([], cs)
  | cs, k + 1 =>
      match takeRun (fun c => c.isWhitespace) cs with
      | ([], _) => ([], cs)
      | (sp, r1) =>
          match takeRun isOrgChar r1 with
          | ([], _) => ([], cs)
          | (w, r2) =>
              let (ext, rest) := orgExt r2 k
              (sp ++ w ++ ext, rest)

/-- Match the org pattern at the head of `cs`: `[A-Za-z][A-Za-z&.\-]+` then
one mandatory `\s+[A-Za-z&.\-]+` then up to three more, greedy. -/
def matchOrgAt (cs : List Char) : Option (List Char × List Char) :=
  match cs with
  | [] => none
  | c :: rest =>
      if c.isAlpha then
        match takeRun isOrgChar rest with
        | ([], _) => none
        | (w1, r1) =>
            match takeRun (fun ch => ch.isWhitespace) r1 with
            | ([], _) => none
            | (sp, r2) =>
                match takeRun isOrgChar r2 with
                | ([], _) => none
                | (w2, r3) =>
                    let (ext, rest2) := orgExt r3 3
                    some (c :: w1 ++ sp ++ w2 ++ ext, rest2)
      else none

/-- `re.findall` of the org pattern: scan left to right with no boundary
requirement, resuming at the end of each match. -/
def scanOrgsF : Nat → List Char → List String
  | 0, _ => []
  | _ + 1, [] => []
  | fuel + 1, c :: cs =>
      match matchOrgAt (c :: cs) with
      | some (m, rest) => String.mk m :: scanOrgsF fuel rest
      | none => scanOrgsF fuel cs

/-- All org-pattern matches of a string, in order. -/
def orgMatches (s : String) : List String :=
  scanOrgsF (s.data.length + 1) s.data

/-- The institutional keyword set of app.py `entities_rebuild`. -/
def AGENCY_HINTS : List String :=
  ["sheriff", "police", "department", "office", "prosecutor", "county",
   "state", "city", "board", "court"]

/-- Substring containment (Python `w in lw`). -/
def hasSub (hay needle : List Char) : Bool :=
  hay.tails.any (fun t => needle.isPrefixOf t)

/-- Python `str.isupper()` over ASCII: at least one cased character and no
lowercase one. -/
def pyIsUpper (s : String) : Bool :=
  s.data.any (fun c => c.isAlpha) && s.data.all (fun c => !isLowerAZ c)

/-- Embedding of `looks_like_org` in app.py `entities_rebuild`. -/
def looks_like_org (s : String) : Bool :=
  AGENCY_HINTS.any (fun w => hasSub (pyLower s).data w.data) || pyIsUpper s

/-- A row of the `entities` table. -/
structure Entity where
  id : Nat
  name : String
  kind : String
deriving Repr, DecidableEq

/-- A row of the `entity_mentions` table as created by app.py
`entities_rebuild`: `(entity_id, doc_id, created_at)` — the table has no
source-kind column. -/
structure Mention where
  entityId : Nat
  docId : Nat
  createdAt : String
deriving Repr, DecidableEq

/-- The mutable state of one rebuild pass: both tables (cleared at the start
of the pass) and the in-memory `ent_cache` mapping
`(name.lower(), kind)` to the entity id. -/
structure EntState where
  entities : List Entity
  mentions : List Mention
  cache : List ((String × String) × Nat)
deriving Repr, DecidableEq

/-- Embedding of the `upsert` closure: return the cached id for the
case-insensitive `(name, kind)` key, else insert and cache a fresh row.
`last_insert_rowid()` is the row count plus one: the table is cleared before
the pass and rows are only appended. -/
def entUpsert (st : EntState) (name kind : String) : EntState × Nat :=
  let key := (pyLower name, kind)
  match st.cache.lookup key with
  | some eid => (st, eid)
  | none =>
      let eid := st.entities.length + 1
      (⟨st.entities ++ [⟨eid, name, kind⟩], st.mentions,
        st.cache ++ [(key, eid)]⟩, eid)

/-- The person loop of `entities_rebuild` for one document blob: every
`NAME_RX` match of length at least 5 is upserted as a `person` and one
mention row is inserted per match occurrence. -/
def addPersonMentions (st : EntState) (docId : Nat) (now blob : String) :
    EntState :=
  (personMatches blob).foldl (fun st cand =>
    if cand.length < 5 then st
    else
      let (st1, eid) := entUpsert st cand "person"
      ⟨st1.entities, st1.mentions ++ [⟨eid, docId, now⟩], st1.cache⟩) st

/-- The org loop of `entities_rebuild` for one document blob: every
org-pattern match of length at least 6 that `looks_like_org` is upserted
(stripped) as an `org` with one mention row per occurrence. -/
def addOrgMentions (st : EntState) (docId : Nat) (now blob : String) :
    EntState :=
  (orgMatches blob).foldl (fun st phrase =>
    if phrase.length < 6 then st
    else if looks_like_org phrase then
      let (st1, eid) := entUpsert st (pyStrip phrase) "org"
      ⟨st1.entities, st1.mentions ++ [⟨eid, docId, now⟩], st1.cache⟩
    else st) st

/-- A document row as selected by `entities_rebuild`: `doc_fts` joined back
to `project_documents`, with the coalesced title. -/
structure EntDoc where
  docId : Nat
  title : String
  body : String
deriving Repr, DecidableEq

/-- Embedding of the app.py `entities-rebuild` command: clear both tables,
then for every indexed document build
`blob = ((title or "") + " " + (body or "")).strip()`, skip empty blobs, and
run the person pass then the org pass. -/
def entities_rebuild (docs : List EntDoc) (now : String) : EntState :=
  docs.foldl (fun st d =>
    let blob := pyStrip (d.title ++ " " ++ d.body)
    if blob = "" then st
    else addOrgMentions (addPersonMentions st d.docId now blob) d.docId now blob)
    ⟨[], [], []⟩

/-! ## Concrete instances used by witnesses and counterexamples -/

/-- An environment in which the input PDF has an extractable text layer and
the ocrmypdf tool is installed and succeeds.  The strategy-B stack is
irrelevant here and errors out. -/
def ocrEnvTextLayer : OcrEnv :=
  ⟨fun _ _ _ => Except.ok ⟨0⟩, fun _ => true,
   fun _ => Except.ok (some "Hello world"),
   fun _ => Except.error (), fun _ => Except.error (),
   fun _ => Except.error (), fun _ _ => Except.error ()⟩

/-- An environment in which ocrmypdf is not installed
(`subprocess.run` raises `FileNotFoundError`) while the PyMuPDF/tesseract
rasterize-and-OCR stack works perfectly. -/
def ocrEnvNoOcrmypdf : OcrEnv :=
  ⟨fun _ _ _ => Except.error (), fun _ => true,
   fun _ => Except.ok none,
   fun _ => Except.ok [1], fun _ => Except.ok 11,
   fun _ => Except.ok 21, fun _ _ => Except.ok ()⟩

/-- Extraction oracle for the id-collision scenario: the project document
and the FOIA attachment have different text. -/
def extractSeven : String → String :=
  fun p => if p = "p7.pdf" then "project text alpha" else "attachment text bravo"

/-- A PDF project document with id 7. -/
def pdSeven : BfProjectDoc := ⟨7, "Project Doc 7", "doc7.pdf", none, some "p7.pdf"⟩

/-- A PDF FOIA attachment that also has id 7. -/
def attSeven : BfAttachment := ⟨7, "att7.pdf", none, some "a7.pdf"⟩

/-- One-document index whose body contains "Indianapolis" as a token. -/
def idxIndy : List FtsRow :=
  [⟨1, "Doc", "Indianapolis Police Department responded"⟩]

/-- The project document backing the `idxIndy` row. -/
def pdsIndy : List SearchProjectDoc := [⟨1, "Doc", "doc.pdf", "proj"⟩]

/-! ## Helper lemmas -/

theorem pyOr_eq (s : String) : pyOr s = s := by
  unfold pyOr
  split
  next h => exact h.symm
  next => rfl

theorem pdfminer_textE_ok (env : TextEnv) (path : String) :
    pdfminer_textE env path = Except.ok (pdfminer_text env path) := by
  unfold pdfminer_textE pdfminer_text
  cases env.pdfminer path <;> rfl

theorem ocr_pdf_textE_ok (env : TextEnv) (path lang : String) (dpi : Nat)
    (maxPages : Option Nat) :
    ocr_pdf_textE env path lang dpi maxPages
      = Except.ok (ocr_pdf_text env path lang dpi maxPages) := by
  unfold ocr_pdf_textE ocr_pdf_text
  cases env.depsOk <;> cases env.fitzOpen path <;> rfl

theorem filter_ne_then_eq (l : List FtsRow) (i : Nat) :
    (l.filter (fun r => r.docId != i)).filter (fun r => r.docId == i) = [] := by
  induction l with
  | nil => rfl
  | cons a t ih =>
      by_cases h : a.docId = i
      · simp [List.filter_cons, h, ih]
      · simp [List.filter_cons, h, ih]

theorem addOrgMentions_noop (st : EntState) (docId : Nat) (now blob : String)
    (h : ∀ p ∈ orgMatches blob, p.length < 6 ∨ looks_like_org p = false) :
    addOrgMentions st docId now blob = st := by
  unfold addOrgMentions
  revert h
  generalize orgMatches blob = l
  intro h
  induction l generalizing st with
  | nil => rfl
  | cons p t ih =>
      have hp := h p (List.mem_cons_self p t)
      have ht : ∀ q ∈ t, q.length < 6 ∨ looks_like_org q = false :=
        fun q hq => h q (List.mem_cons_of_mem p hq)
      simp only [List.foldl_cons]
      rcases hp with hlen | horg
      · rw [if_pos hlen]
        exact ih st ht
      · by_cases hlen : p.length < 6
        · rw [if_pos hlen]
          exact ih st ht
        · rw [if_neg hlen, if_neg (by simp [horg])]
          exact ih st ht

/-! ## Claims -/

/-- Claim C1, evaluated at the failing input: a project document with id 7
and a FOIA attachment with id 7 are both indexed by the backfill orchestrator
(`scripts/ocr_backfill.py main`), yet the resulting `doc_fts` holds a single
row for doc_id 7 whose body is the attachment text — the attachment pass's
`DELETE FROM doc_fts WHERE doc_id = 7` erased the project document's row, the
project document's text survives nowhere, and the `/search` join then
attributes that one conflated body to BOTH sources.  This refutes the claimed
invariant that the two documents stay distinguishable. -/
theorem ocr_backfill_conflates_ids :
    ocrBackfillMain extractSeven [pdSeven] [attSeven] []
        = [⟨7, "att7.pdf", "attachment text bravo"⟩]
  ∧ (ocrBackfillMain extractSeven [pdSeven] [attSeven] []).filter
        (fun r => r.body == "project text alpha") = []
  ∧ searchHandler (ocrBackfillMain extractSeven [pdSeven] [attSeven] [])
        [⟨7, "Project Doc 7", "doc7.pdf", "slugx"⟩] [⟨7, "att7.pdf", none⟩]
        [] [] (some "bravo")
        = ([⟨7, "Project Doc 7", some "slugx", "project"⟩,
            ⟨7, "att7.pdf", none, "attachment"⟩], 1) := by
  refine ⟨by decide, by decide, by decide⟩

/-- Claim C2: for any starting index and any two writes for the same
document id, the delete-then-insert upsert of app.py leaves exactly one
`doc_fts` row for that id, whose body is the second write's extracted text —
index rows for a key never accumulate under repeated indexing. -/
theorem fts_upsert_single_row (fts : List FtsRow) (i : Nat)
    (t1 b1 t2 b2 : String) :
    ((ftsUpsert (ftsUpsert fts i t1 b1) i t2 b2).filter
        (fun r => r.docId == i)) = [⟨i, t2, b2⟩] := by
  unfold ftsUpsert
  rw [List.filter_append, filter_ne_then_eq]
  simp [List.filter_cons]

/-- Claim C3 counterexample: an input PDF whose text layer is extractable
(`pdf_has_text` holds) for which `make_searchable` succeeds while having
performed exactly one ocrmypdf subprocess invocation — the claim requires
success with zero OCR subprocess invocations (and a verbatim copy, which the
function never makes: its only output is the subprocess's output file). -/
theorem make_searchable_runs_subprocess_on_text_pdf :
    pdf_has_text ocrEnvTextLayer "in.pdf" = true
  ∧ make_searchable ocrEnvTextLayer "in.pdf" "out.pdf" "eng" = true
  ∧ (make_searchableRun ocrEnvTextLayer "in.pdf" "out.pdf" "eng").2.1 = 1 := by
  refine ⟨by decide, by decide, by decide⟩

/-- Claim C3 as amended: on every input — whether or not the PDF already has
a text layer — `make_searchable` performs exactly one ocrmypdf subprocess
invocation (relying on the tool's `--skip-text` flag to avoid re-OCR of
pages that already carry text), and returns `True` exactly when the
subprocess exits 0 and the output path exists; it never copies the input
itself. -/
theorem make_searchable_always_invokes_ocrmypdf (env : OcrEnv)
    (i o l : String) :
    (make_searchableRun env i o l).2.1 = 1
  ∧ make_searchable env i o l
      = (match env.runOcrmypdf l i o with
         | Except.error _ => false
         | Except.ok cp => (cp.returncode == 0) && env.pathOk o) := by
  unfold make_searchable make_searchableRun
  cases h : env.runOcrmypdf l i o with
  | error e => exact ⟨rfl, rfl⟩
  | ok cp =>
      by_cases hc : cp.returncode = 0
      · simp [hc]
      · simp [hc]

/-- Claim C4 counterexample: an environment in which ocrmypdf is not
installed while the rasterize-and-OCR stack (`ocr_with_pymupdf_tesseract`)
would succeed; `make_searchable` nevertheless returns failure after printing
the not-found diagnostic — the claimed fallback to the secondary strategy
never happens (`ocr_with_pymupdf_tesseract` has no caller). -/
theorem make_searchable_no_fallback_strategy :
    ocr_with_pymupdf_tesseract ocrEnvNoOcrmypdf "in.pdf" "out.pdf" = true
  ∧ make_searchable ocrEnvNoOcrmypdf "in.pdf" "out.pdf" "eng" = false
  ∧ (make_searchableRun ocrEnvNoOcrmypdf "in.pdf" "out.pdf" "eng").2.2
      = ["[ocr] ocrmypdf not found on PATH. Install it (brew install ocrmypdf tesseract)."] := by
  refine ⟨by decide, by decide, by decide⟩

/-- Claim C4 as amended: when the ocrmypdf invocation is unavailable or
fails, `make_searchable` surfaces the failure as a printed message and a
`False` return, never as an exception (the exception-level translation
always returns normally); and its result depends only on the ocrmypdf
subprocess and the filesystem probe — the rasterize-and-OCR components play
no part, so no fallback to the secondary strategy occurs.  Callers that keep
the original file on a `False` return therefore fall back directly to the
unmodified original. -/
theorem make_searchable_failure_logged_not_raised (e e2 : OcrEnv)
    (i o l : String) :
    make_searchableE e i o l = Except.ok (make_searchable e i o l)
  ∧ ((e.runOcrmypdf l i o).isOk = false →
      make_searchable e i o l = false
        ∧ (make_searchableRun e i o l).2.2 ≠ [])
  ∧ (e.runOcrmypdf = e2.runOcrmypdf → e.pathOk = e2.pathOk →
      make_searchable e i o l = make_searchable e2 i o l) := by
  refine ⟨?_, ?_, ?_⟩
  · unfold make_searchableE make_searchable make_searchableRun
    cases e.runOcrmypdf l i o with
    | error x => rfl
    | ok cp =>
        by_cases hc : cp.returncode = 0
        · simp [hc]
        · simp [hc]
  · intro hfail
    unfold make_searchable make_searchableRun
    cases h : e.runOcrmypdf l i o with
    | error x => exact ⟨rfl, by simp⟩
    | ok cp => rw [h] at hfail; exact absurd hfail (by simp [Except.isOk, Except.toBool])
  · intro h1 h2
    unfold make_searchable make_searchableRun
    rw [h1, h2]

/-- Claim C9: the text-extraction entry point never raises — under every
behavior of the underlying libraries (pdfminer raising or returning `None`,
`fitz.open` raising, any page of the OCR loop raising) the exception-level
translation of `extract_pdf_text` returns normally with the value of the
total function; in particular a missing or corrupt file (both probes raise)
yields the empty string, so a batch indexing run is never aborted by one bad
document. -/
theorem extract_pdf_text_never_raises (env : TextEnv) (path : String)
    (fb : Bool) (lang : String) :
    extract_pdf_textE env path fb lang
        = Except.ok (extract_pdf_text env path fb lang)
  ∧ (env.pdfminer path = Except.error ()
      → env.fitzOpen path = Except.error ()
      → extract_pdf_text env path fb lang = "") := by
  constructor
  · unfold extract_pdf_textE extract_pdf_text extract_pdf_textRun
    simp only [pdfminer_textE_ok, ocr_pdf_textE_ok]
    by_cases h1 :
        (fb && decide ((pyStrip (pdfminer_text env path)).length < 20)) = true
    · by_cases h2 : (pyStrip (ocr_pdf_text env path lang 300 none)).length
          > (pyStrip (pdfminer_text env path)).length
      · simp [h1, h2, Bind.bind, Except.bind, pure, Except.pure]
      · simp [h1, h2, Bind.bind, Except.bind, pure, Except.pure]
    · simp [h1, Bind.bind, Except.bind, pure, Except.pure]
  · intro hp hf
    unfold extract_pdf_text extract_pdf_textRun pdfminer_text ocr_pdf_text
    rw [hp, hf]
    cases env.depsOk <;> cases fb <;> simp [pyStrip, pyOr, joinWith]

/-- Claim C5: with the OCR fallback enabled (its default), `extract_pdf_text`
enters the OCR fallback exactly when the stripped direct-extraction text has
fewer than 20 characters; in that case it returns the OCR text precisely when
the OCR output has more text (after stripping) than the direct extraction and
the direct-extraction text otherwise, and outside that case it returns the
direct-extraction text untouched.  In particular, an empty text layer
together with at least one character of OCR output yields the OCR text. -/
theorem extract_pdf_text_fallback (env : TextEnv) (path lang : String) :
    ((extract_pdf_textRun env path true lang).2
        = decide ((pyStrip (pdfminer_text env path)).length < 20))
  ∧ (extract_pdf_text env path true lang =
      (if (pyStrip (pdfminer_text env path)).length < 20 then
        (if (pyStrip (ocr_pdf_text env path lang 300 none)).length
              > (pyStrip (pdfminer_text env path)).length
          then ocr_pdf_text env path lang 300 none
          else pdfminer_text env path)
        else pdfminer_text env path))
  ∧ (pyStrip (pdfminer_text env path) = "" →
      1 ≤ (pyStrip (ocr_pdf_text env path lang 300 none)).length →
      extract_pdf_text env path true lang
        = ocr_pdf_text env path lang 300 none) := by
  refine ⟨?_, ?_, ?_⟩
  · unfold extract_pdf_textRun
    by_cases h1 : (pyStrip (pdfminer_text env path)).length < 20
    · simp only [h1, decide_True, Bool.true_and, if_true]
      by_cases h2 : (pyStrip (ocr_pdf_text env path lang 300 none)).length
          > (pyStrip (pdfminer_text env path)).length
      · simp [h2]
      · simp [h2]
    · simp [h1]
  · unfold extract_pdf_text extract_pdf_textRun
    by_cases h1 : (pyStrip (pdfminer_text env path)).length < 20
    · by_cases h2 : (pyStrip (ocr_pdf_text env path lang 300 none)).length
          > (pyStrip (pdfminer_text env path)).length
      · simp [h1, h2]
      · simp [h1, h2, pyOr_eq]
    · simp [h1, pyOr_eq]
  · intro hz hocr
    unfold extract_pdf_text extract_pdf_textRun
    have h1 : (pyStrip (pdfminer_text env path)).length < 20 := by
      rw [hz]
      show (0 : Nat) < 20
      decide
    have h2 : (pyStrip (ocr_pdf_text env path lang 300 none)).length
        > (pyStrip (pdfminer_text env path)).length := by
      rw [hz]; exact Nat.lt_of_lt_of_le Nat.zero_lt_one hocr
    simp [h1, h2]

/-- Claim C7: `backfill_fts` processes exactly the anti-join of the
PDF-eligible documents against the index, so running it a second time with
no new documents indexes zero additional documents and leaves the index
unchanged. -/
theorem backfill_fts_idempotent (extract : String → String)
    (docs : List ProjectDoc) (fts : List FtsRow) :
    (backfill_fts extract docs (backfill_fts extract docs fts).1).2 = 0
  ∧ (backfill_fts extract docs (backfill_fts extract docs fts).1).1
      = (backfill_fts extract docs fts).1 := by
  have key : ∀ d ∈ docs,
      ¬((isPdfDoc d
          && !((backfill_fts extract docs fts).1).any
                (fun r => r.docId == d.id)) = true) := by
    intro d hd hcontra
    rw [Bool.and_eq_true, Bool.not_eq_true', Bool.eq_false_iff] at hcontra
    obtain ⟨hp, hnot⟩ := hcontra
    apply hnot
    unfold backfill_fts
    rw [List.any_eq_true]
    by_cases hin : fts.any (fun r => r.docId == d.id) = true
    · rw [List.any_eq_true] at hin
      obtain ⟨r, hr, hrid⟩ := hin
      exact ⟨r, List.mem_append_left _ hr, hrid⟩
    · refine ⟨⟨d.id, orUntitled (coalesceTitle d.title d.filename),
          extract d.storedPath⟩, ?_, by simp⟩
      apply List.mem_append_right
      apply List.mem_map_of_mem
      rw [List.mem_filter]
      refine ⟨hd, ?_⟩
      rw [Bool.and_eq_true, Bool.not_eq_true']
      exact ⟨hp, Bool.eq_false_iff.mpr hin⟩
  have hnil : docs.filter
      (fun d => isPdfDoc d
        && !((backfill_fts extract docs fts).1).any
              (fun r => r.docId == d.id)) = [] := by
    rw [List.filter_eq_nil_iff]
    exact key
  constructor
  · show (docs.filter _).length = 0
    rw [hnil]
    rfl
  · show (backfill_fts extract docs fts).1 ++ (docs.filter _).map _
        = (backfill_fts extract docs fts).1
    rw [hnil]
    simp

/-- Claim C6: for a non-blank query the handler runs the AND-combined
exact-term query first and falls back to the AND-combined prefix query
exactly when the exact phase returns zero rows; consequently, when no row
matches every term exactly but some indexed row matches every term as a
token prefix (and resolves to a project document or attachment through the
join), the handler returns a non-empty result set from the prefix phase. -/
theorem search_two_phase (idx : List FtsRow) (pds : List SearchProjectDoc)
    (atts : List SearchAttachment) (reqs : List FoiaRequestRow)
    (projs : List ProjectRow) (q : String) (hq : pyStrip q ≠ "") :
    (searchHandler idx pds atts reqs projs (some q) =
      (let terms := pySplit (pyStrip q)
       let ex := searchQuery idx pds atts reqs projs (matchExact terms)
       if ex = [] then
         (searchQuery idx pds atts reqs projs (matchPref terms), 2)
       else (ex, 1)))
  ∧ (searchQuery idx pds atts reqs projs
        (matchExact (pySplit (pyStrip q))) = [] →
      (∃ r, r ∈ idx ∧ matchPref (pySplit (pyStrip q)) r = true
        ∧ ((∃ d, d ∈ pds ∧ d.id = r.docId)
            ∨ (∃ a, a ∈ atts ∧ a.id = r.docId))) →
      (searchHandler idx pds atts reqs projs (some q)).1 ≠ []) := by
  have hmain : searchHandler idx pds atts reqs projs (some q) =
      (let terms := pySplit (pyStrip q)
       let ex := searchQuery idx pds atts reqs projs (matchExact terms)
       if ex = [] then
         (searchQuery idx pds atts reqs projs (matchPref terms), 2)
       else (ex, 1)) := by
    unfold searchHandler
    rw [if_neg (by simpa using hq)]
    by_cases he : searchQuery idx pds atts reqs projs
        (matchExact (pySplit (pyStrip q))) = []
    · simp [he]
    · simp [he]
  refine ⟨hmain, ?_⟩
  intro hex hwit
  rw [hmain]
  simp only [hex, if_pos]
  obtain ⟨r, hr, hpf, hres⟩ := hwit
  show searchQuery idx pds atts reqs projs
      (matchPref (pySplit (pyStrip q))) ≠ []
  unfold searchQuery
  intro htake
  rw [List.take_eq_nil_iff] at htake
  rcases htake with h50 | happ
  · exact absurd h50 (by decide)
  · rw [List.append_eq_nil] at happ
    obtain ⟨hproj, hatt⟩ := happ
    rcases hres with ⟨d, hd, hdid⟩ | ⟨a, ha, haid⟩
    · have : (⟨d.id, coalesceTitle d.title d.filename, some d.projectSlug,
          "project"⟩ : SearchResult) ∈ ([] : List SearchResult) := by
        rw [← hproj]
        rw [List.mem_flatMap]
        refine ⟨r, ?_, ?_⟩
        · rw [List.mem_filter]; exact ⟨hr, hpf⟩
        · apply List.mem_map_of_mem
          rw [List.mem_filter]
          exact ⟨hd, by simp [hdid]⟩
      exact absurd this (List.not_mem_nil _)
    · have : (⟨a.id, attachmentTitle a, attachmentSlug reqs projs a,
          "attachment"⟩ : SearchResult) ∈ ([] : List SearchResult) := by
        rw [← hatt]
        rw [List.mem_flatMap]
        refine ⟨r, ?_, ?_⟩
        · rw [List.mem_filter]; exact ⟨hr, hpf⟩
        · apply List.mem_map_of_mem
          rw [List.mem_filter]
          exact ⟨ha, by simp [haid]⟩
      exact absurd this (List.not_mem_nil _)

/-- Witness for C6 at a concrete corpus: the query "India" has no exact token
match in the index (whose one body reads "Indianapolis Police Department
responded") but matches "indianapolis" as a prefix, and the handler returns a
non-empty result set. -/
theorem search_two_phase_witness :
    0 < (searchHandler idxIndy pdsIndy [] [] [] (some "India")).1.length := by
  have h := search_two_phase idxIndy pdsIndy [] [] [] "India" (by decide)
  have hne := h.2 (by decide)
    ⟨⟨1, "Doc", "Indianapolis Police Department responded"⟩, by decide,
      by decide,
      Or.inl ⟨⟨1, "Doc", "doc.pdf", "proj"⟩, by decide, by decide⟩⟩
  exact List.length_pos.mpr hne

/-- Claim C10: a search request whose `q` parameter is absent, empty or
whitespace-only yields the empty result set with zero MATCH queries executed
against the full-text index. -/
theorem search_blank_query (idx : List FtsRow) (pds : List SearchProjectDoc)
    (atts : List SearchAttachment) (reqs : List FoiaRequestRow)
    (projs : List ProjectRow) (qArg : Option String)
    (h : pyStrip (qArg.getD "") = "") :
    searchHandler idx pds atts reqs projs qArg = ([], 0) := by
  unfold searchHandler
  rw [if_pos h]

/-- Witness for C10: a whitespace-only query over a non-empty corpus returns
no rows and issues no query. -/
theorem search_blank_query_witness :
    searchHandler idxIndy pdsIndy [] [] [] (some "   ") = ([], 0) :=
  search_blank_query idxIndy pdsIndy [] [] [] (some "   ") (by decide)

/-- Claim C8: over a corpus of two distinct documents whose blobs each
produce exactly one person-regex match "John Smith" (and no qualifying org
phrase), `entities_rebuild` leaves exactly one entities row — `(name "John
Smith", kind "person")`, deduplicated through the case-insensitive in-memory
cache — and exactly two `entity_mentions` rows, one per document, both
referencing that single entity id 1. -/
theorem entities_rebuild_dedup (i1 i2 : Nat) (t1 b1 t2 b2 now : String)
    (h1 : personMatches (pyStrip (t1 ++ " " ++ b1)) = ["John Smith"])
    (h2 : personMatches (pyStrip (t2 ++ " " ++ b2)) = ["John Smith"])
    (h3 : ∀ p ∈ orgMatches (pyStrip (t1 ++ " " ++ b1)),
      p.length < 6 ∨ looks_like_org p = false)
    (h4 : ∀ p ∈ orgMatches (pyStrip (t2 ++ " " ++ b2)),
      p.length < 6 ∨ looks_like_org p = false) :
    (entities_rebuild [⟨i1, t1, b1⟩, ⟨i2, t2, b2⟩] now).entities
        = [⟨1, "John Smith", "person"⟩]
  ∧ (entities_rebuild [⟨i1, t1, b1⟩, ⟨i2, t2, b2⟩] now).mentions
        = [⟨1, i1, now⟩, ⟨1, i2, now⟩] := by
  have hb1 : pyStrip (t1 ++ " " ++ b1) ≠ "" := by
    intro he
    rw [he] at h1
    exact absurd h1 (by decide)
  have hb2 : pyStrip (t2 ++ " " ++ b2) ≠ "" := by
    intro he
    rw [he] at h2
    exact absurd h2 (by decide)
  have step1 : addPersonMentions ⟨[], [], []⟩ i1 now (pyStrip (t1 ++ " " ++ b1))
      = ⟨[⟨1, "John Smith", "person"⟩], [⟨1, i1, now⟩],
         [(("john smith", "person"), 1)]⟩ := by
    unfold addPersonMentions
    rw [h1]
    rfl
  have step2 : addPersonMentions
      ⟨[⟨1, "John Smith", "person"⟩], [⟨1, i1, now⟩],
       [(("john smith", "person"), 1)]⟩ i2 now (pyStrip (t2 ++ " " ++ b2))
      = ⟨[⟨1, "John Smith", "person"⟩], [⟨1, i1, now⟩, ⟨1, i2, now⟩],
         [(("john smith", "person"), 1)]⟩ := by
    unfold addPersonMentions
    rw [h2]
    rfl
  have whole : entities_rebuild [⟨i1, t1, b1⟩, ⟨i2, t2, b2⟩] now
      = ⟨[⟨1, "John Smith", "person"⟩], [⟨1, i1, now⟩, ⟨1, i2, now⟩],
         [(("john smith", "person"), 1)]⟩ := by
    unfold entities_rebuild
    rw [List.foldl_cons, List.foldl_cons, List.foldl_nil]
    rw [if_neg hb1]
    rw [step1, addOrgMentions_noop _ _ _ _ h3]
    rw [if_neg hb2]
    rw [step2, addOrgMentions_noop _ _ _ _ h4]
  rw [whole]
  exact ⟨rfl, rfl⟩

/-- Witness for C8: two documents whose bodies are both exactly
"John Smith". -/
theorem entities_rebuild_dedup_witness :
    (entities_rebuild [⟨7, "", "John Smith"⟩, ⟨8, "", "John Smith"⟩]
        "2024-01-01T00:00:00").entities = [⟨1, "John Smith", "person"⟩]
  ∧ (entities_rebuild [⟨7, "", "John Smith"⟩, ⟨8, "", "John Smith"⟩]
        "2024-01-01T00:00:00").mentions
      = [⟨1, 7, "2024-01-01T00:00:00"⟩, ⟨1, 8, "2024-01-01T00:00:00"⟩] :=
  entities_rebuild_dedup 7 8 "" "John Smith" "" "John Smith"
    "2024-01-01T00:00:00" (by decide) (by decide) (by decide) (by decide)
